import Mathlib

/-!
Shallow embedding of the EV charging kiosk RFID verification service.

Sources embedded:
- src/scripts/rfid_verification.py : the scan loop (`main`), `scan_and_log`,
  `log_authentication_event`.
- src/backend/supabase_db.py : `get_user_by_eid`, `update_user_balance`,
  `update_user_balance_by_id`, `convert_to_api_format`, `convert_from_api_format`.

Modelling conventions:
- Wall-clock times and balances are rationals (the Python code only moves such
  values around, compares them and takes `max`, so no rounding behaviour is lost).
- A remote call that may raise is represented by an `Except Unit` value supplied
  as an input (the oracle for that call); `Except.error` models a raised exception.
- The remote `users` table is a list of rows, and the supabase `.eq` query is a
  filter by exact string equality, exactly as the remote store evaluates it.
- Python `str.strip()` is `pyStrip` (drop leading and trailing whitespace).
- Python truthiness of an optional string (`if user_id:`) is `strTruthy`.
-/

deriving instance DecidableEq for Except

namespace EvKiosk

/-- A row of the remote `users` table, with the fields the embedded code touches
(`id`, `name`, `eid`, `current_balance`, `contact_number`, `created_at`). -/
structure UserRecord where
  id : String
  name : String
  eid : String
  current_balance : ℚ
  contact_number : String
  created_at : String
  deriving Repr, DecidableEq

/-- The payload inserted into the `authentication_logs` table by
`log_authentication_event`: `user_id`, `user_name` and `message` are optional
keys of the dict. -/
structure LogData where
  eid : String
  event_type : String
  success : Bool
  message : Option String
  user_id : Option String
  user_name : Option String
  deriving Repr, DecidableEq

/-- Python `str.strip()`: drop leading and trailing whitespace characters. -/
def pyStrip (s : String) : String :=
  ⟨((s.data.dropWhile Char.isWhitespace).reverse.dropWhile Char.isWhitespace).reverse⟩

/-- Python truthiness of an `Optional[str]`: `None` and the empty string are falsy. -/
def strTruthy : Option String → Bool
  | none => false
  | some s => s != ""

/-- The `log_data` dict built by `log_authentication_event`
(rfid_verification.py lines 88-98): `eid`, `event_type`, `success`, `message`
are always present; `user_id` and `user_name` are added only when truthy. -/
def mkLogData (eid : String) (event_type : String) (success : Bool)
    (user_id : Option String) (user_name : Option String)
    (message : Option String) : LogData :=
  { eid := eid
    event_type := event_type
    success := success
    message := message
    user_id := if strTruthy user_id then user_id else none
    user_name := if strTruthy user_name then user_name else none }

/-- Return value of `log_authentication_event` (rfid_verification.py lines
87-108): the insert is attempted; a raised exception yields `false`, an empty
`response.data` yields `false`, a non-empty one yields `true`.
`insertResult` is the oracle for `supabase.table(LOGS_TABLE).insert(..).execute()`. -/
def log_authentication_event (insertResult : Except Unit (List Unit)) : Bool :=
  match insertResult with
  | Except.error _ => false
  | Except.ok rows => !rows.isEmpty

/-- Events appended by `scan_and_log` (rfid_verification.py lines 111-148).
`queryResult` is the oracle for the users query
`supabase.table(USERS_TABLE).select("*").eq("eid", str(eid)).execute()`:
`Except.error` models the query raising (the function then only prints and
appends nothing); a non-empty row list takes the login branch with the first
row; an empty one takes the failed branch. -/
def scan_and_log (eid : String) (queryResult : Except Unit (List UserRecord)) :
    List LogData :=
  match queryResult with
  | Except.error _ => []
  | Except.ok rows =>
    match rows with
    | [] =>
      [mkLogData eid "failed" false none none
        (some ("No user found with EID: " ++ eid))]
    | user :: _ =>
      [mkLogData eid "login" true (some user.id) (some user.name)
        (some ("User " ++ user.name ++ " scanned successfully"))]

/-- Observable actions of one pass of the service, in program order: remote
directory lookups, audit-log appends, updates of the dedup state
(`last_scanned_eid` / `last_scan_time`), sleeps, the traceback print of the
outer exception handler, and `GPIO.cleanup()`. -/
inductive Action where
  | dirLookup (eid : String)
  | appendEvent (e : LogData)
  | setState (eid : String) (time : ℚ)
  | sleep (d : ℚ)
  | logFault
  | cleanup
  deriving Repr, DecidableEq

/-- Whether an action is an audit-log append. -/
def Action.isAppend : Action → Bool
  | Action.appendEvent _ => true
  | _ => false

/-- Actions of one call of `scan_and_log` in program order: the users query is
issued first, then each produced event is appended. -/
def scan_and_log_actions (eid : String)
    (queryResult : Except Unit (List UserRecord)) : List Action :=
  Action.dirLookup eid :: (scan_and_log eid queryResult).map Action.appendEvent

/-- The dedup state owned by `main` (rfid_verification.py lines 176-177):
`last_scanned_eid` starts as `None`, `last_scan_time` starts as `0`. -/
structure ScanState where
  last_scanned_eid : Option String
  last_scan_time : ℚ
  deriving Repr, DecidableEq

/-- Initial dedup state of `main`. -/
def initState : ScanState := { last_scanned_eid := none, last_scan_time := 0 }

/-- Environment inputs consumed by one iteration of the `while True` loop:
the result of `read_rfid_card()`, the value of `time.time()`, and the oracles
for the two remote calls the iteration may issue. -/
structure Tick where
  readResult : Option (String × String)
  time : ℚ
  queryResult : Except Unit (List UserRecord)
  insertResult : Except Unit (List Unit)
  deriving Repr, DecidableEq

/-- Classification of one loop iteration: empty read, cooldown-suppressed
duplicate, or an accepted (processed) scan carrying the accepted identifier,
the acceptance time and the events produced by `scan_and_log`. -/
inductive TickOutcome where
  | idle
  | suppressed
  | processed (eid : String) (time : ℚ) (events : List LogData)
  deriving Repr, DecidableEq

/-- One iteration of the loop body of `main` (rfid_verification.py lines
181-205): an empty read sleeps and retries; a read whose trimmed identifier
equals `last_scanned_eid` within the 2-second cooldown is discarded with the
state unchanged; otherwise `scan_and_log` runs and the state is set to the new
identifier and the current time. -/
def mainStep (s : ScanState) (t : Tick) : ScanState × TickOutcome :=
  match t.readResult with
  | none => (s, TickOutcome.idle)
  | some (card_id, _card_text) =>
    let eid := pyStrip card_id
    if s.last_scanned_eid = some eid ∧ t.time - s.last_scan_time < 2 then
      (s, TickOutcome.suppressed)
    else
      ({ last_scanned_eid := some eid, last_scan_time := t.time },
        TickOutcome.processed eid t.time (scan_and_log eid t.queryResult))

/-- Observable actions of one iteration of `main` in program order: an empty
read or a suppressed duplicate only sleeps 0.1s; an accepted scan issues the
directory lookup and the append (inside `scan_and_log`), then assigns
`last_scanned_eid` and `last_scan_time`, then sleeps 0.5s. -/
def mainIterActions (s : ScanState) (t : Tick) : List Action :=
  match t.readResult with
  | none => [Action.sleep (1/10)]
  | some (card_id, _card_text) =>
    let eid := pyStrip card_id
    if s.last_scanned_eid = some eid ∧ t.time - s.last_scan_time < 2 then
      [Action.sleep (1/10)]
    else
      scan_and_log_actions eid t.queryResult ++
        [Action.setState eid t.time, Action.sleep (1/2)]

/-- One event driving the loop of `main`: a normal iteration with its inputs, a
`KeyboardInterrupt`, or an exception raised inside the loop body that no inner
handler catches. -/
inductive LoopEvent where
  | tick (t : Tick)
  | interrupt
  | fault
  deriving Repr, DecidableEq

/-- How the loop of `main` ended. -/
inductive ExitKind where
  | interrupted
  | faulted
  deriving Repr, DecidableEq

/-- The loop of `main` with its surrounding handlers (rfid_verification.py
lines 180-218): the `try` wraps the whole `while True`; a `KeyboardInterrupt`
exits the loop, any other exception raised inside the body is caught by the
outer `except Exception`, its traceback printed, and the loop also exits; the
`finally` block runs `GPIO.cleanup()` when `rpi` (RASPBERRY_PI) is true.
Returns the actions performed and how the loop ended (`none` while the supplied
events are exhausted with the loop still running). -/
def runLoop (rpi : Bool) : ScanState → List LoopEvent → List Action × Option ExitKind
  | _, [] => ([], none)
  | s, LoopEvent.tick t :: rest =>
    let r := runLoop rpi (mainStep s t).1 rest
    (mainIterActions s t ++ r.1, r.2)
  | _, LoopEvent.interrupt :: _ =>
    ((if rpi then [Action.cleanup] else []), some ExitKind.interrupted)
  | _, LoopEvent.fault :: _ =>
    (Action.logFault :: (if rpi then [Action.cleanup] else []),
      some ExitKind.faulted)

/-- The accepted scans of a run, in order, as (identifier, acceptance time)
pairs. -/
def acceptedLog : ScanState → List Tick → List (String × ℚ)
  | _, [] => []
  | s, t :: ts =>
    match mainStep s t with
    | (s2, TickOutcome.processed eid time _) => (eid, time) :: acceptedLog s2 ts
    | (s2, _) => acceptedLog s2 ts

/-- The claim predicate of state-before-call ordering: every directory lookup
in an iteration trace is preceded by a state update. -/
def stateBeforeDir (acts : List Action) : Prop :=
  ∀ j e, acts.get? j = some (Action.dirLookup e) →
    ∃ i e2 τ, i < j ∧ acts.get? i = some (Action.setState e2 τ)

/-- Lookup of a user by card id, `get_user_by_eid` (supabase_db.py lines
46-57): with no client (`supabaseUp = false`) it returns `none`; the query
filters the table rows by exact equality of `eid` with the stripped input and
takes the first match; an empty result or a raised exception
(`callFails = true`) both return `none`. -/
def get_user_by_eid (supabaseUp : Bool) (table : List UserRecord)
    (callFails : Bool) (eid : String) : Option UserRecord :=
  if !supabaseUp then none
  else if callFails then none
  else
    match table.filter (fun u => u.eid == pyStrip eid) with
    | [] => none
    | u :: _ => some u

/-- Balance update by card id, `update_user_balance` (supabase_db.py lines
89-102): the supplied balance is first clamped with `max(0.0, ...)`, the rows
whose `eid` equals the stripped input are updated to the clamped value, and the
call returns whether any row was updated; with no client or a raised exception
the table is unchanged and the result is `false`. -/
def update_user_balance (supabaseUp : Bool) (table : List UserRecord)
    (callFails : Bool) (eid : String) (new_balance : ℚ) :
    List UserRecord × Bool :=
  if !supabaseUp then (table, false)
  else if callFails then (table, false)
  else
    let nb := max 0 new_balance
    (table.map (fun u =>
        if u.eid == pyStrip eid then { u with current_balance := nb } else u),
      !(table.filter (fun u => u.eid == pyStrip eid)).isEmpty)

/-- Balance update by user id, `update_user_balance_by_id` (supabase_db.py
lines 105-118): same clamping as `update_user_balance`, but the filter is exact
equality of `id` with the input (no strip). -/
def update_user_balance_by_id (supabaseUp : Bool) (table : List UserRecord)
    (callFails : Bool) (user_id : String) (new_balance : ℚ) :
    List UserRecord × Bool :=
  if !supabaseUp then (table, false)
  else if callFails then (table, false)
  else
    let nb := max 0 new_balance
    (table.map (fun u =>
        if u.id == user_id then { u with current_balance := nb } else u),
      !(table.filter (fun u => u.id == user_id)).isEmpty)

/-- An API-format user dict: the fields read by `convert_from_api_format`.
`state` is an optional key (defaulted to `True` by the conversion). -/
structure ApiUser where
  id : String
  name : String
  rfidCardId : String
  balance : ℚ
  phoneNumber : String
  createdAt : String
  state : Option Bool
  deriving Repr, DecidableEq

/-- A database-format user dict as handled by the conversion functions: `id`
and `created_at` are optional keys (absent from dicts built by
`convert_from_api_format`), defaulted to the empty string on read. -/
structure DbUser where
  id : Option String
  eid : String
  name : String
  contact_number : String
  current_balance : ℚ
  state : Bool
  created_at : Option String
  deriving Repr, DecidableEq

/-- Conversion from database format to API format, `convert_to_api_format`
(supabase_db.py lines 157-166): missing `id` and `created_at` keys default to
the empty string. -/
def convert_to_api_format (user : DbUser) : ApiUser :=
  { id := user.id.getD ""
    name := user.name
    rfidCardId := user.eid
    balance := user.current_balance
    phoneNumber := user.contact_number
    createdAt := user.created_at.getD ""
    state := none }

/-- Conversion from API format to database format, `convert_from_api_format`
(supabase_db.py lines 169-177): the produced dict has no `id` or `created_at`
key, and `state` defaults to `True` when absent. -/
def convert_from_api_format (user : ApiUser) : DbUser :=
  { id := none
    eid := user.rfidCardId
    name := user.name
    contact_number := user.phoneNumber
    current_balance := user.balance
    state := user.state.getD true
    created_at := none }

/-- Sample directory row used by concrete witnesses and counterexamples: user
u1 named Alice with card id 123 and balance 5. -/
def aliceRow : UserRecord :=
  { id := "u1", name := "Alice", eid := "123", current_balance := 5,
    contact_number := "", created_at := "" }

/-- The sample row after its balance was updated to 3. -/
def aliceRow3 : UserRecord := { aliceRow with current_balance := 3 }

/-- C8: `get_user_by_eid` strips its input and matches it exactly against the
stored `eid` field (any returned record is a table row whose `eid` equals the
stripped input); a raised remote call returns `none`, and so does an empty
match, so the caller cannot tell not-found from directory-unreachable. -/
theorem c8_lookup_trims_and_collapses_failures :
    (∀ (up : Bool) (table : List UserRecord) (fail : Bool) (eid : String)
        (u : UserRecord), get_user_by_eid up table fail eid = some u →
        u ∈ table ∧ u.eid = pyStrip eid) ∧
    (∀ (up : Bool) (table : List UserRecord) (eid : String),
        get_user_by_eid up table true eid = none) ∧
    (∀ (up : Bool) (table : List UserRecord) (fail : Bool) (eid : String),
        (∀ u ∈ table, u.eid ≠ pyStrip eid) →
        get_user_by_eid up table fail eid = none) := by
  refine ⟨?_, ?_, ?_⟩
  · intro up table fail eid u hu
    unfold get_user_by_eid at hu
    by_cases hup : up
    · simp only [hup, Bool.not_true, Bool.false_eq_true, if_false] at hu
      by_cases hf : fail
      · simp [hf] at hu
      · simp only [hf, if_false] at hu
        rcases hfil : table.filter (fun v => v.eid == pyStrip eid) with _ | ⟨v, l⟩
        · rw [hfil] at hu; exact absurd hu (by simp)
        · rw [hfil] at hu
          have hv : v ∈ table.filter (fun v => v.eid == pyStrip eid) := by
            rw [hfil]; exact List.mem_cons_self v l
          rw [List.mem_filter] at hv
          have huv : v = u := by
            simpa using hu
          exact ⟨huv ▸ hv.1, by rw [← huv]; exact beq_iff_eq.mp hv.2⟩
    · simp [hup] at hu
  · intro up table eid
    unfold get_user_by_eid
    by_cases hup : up <;> simp [hup]
  · intro up table fail eid hnone
    unfold get_user_by_eid
    by_cases hup : up
    · by_cases hf : fail
      · simp [hup, hf]
      · have hfil : table.filter (fun v => v.eid == pyStrip eid) = [] := by
          rw [List.filter_eq_nil_iff]
          intro v hv
          simpa using hnone v hv
        simp [hup, hf, hfil]
    · simp [hup]

/-- Witness for C8 at concrete inputs: a lookup of " 123 " on a one-row table
whose row has eid "123" returns that row with its eid equal to the stripped
input; a failing call and a no-match lookup both return none. -/
theorem c8_lookup_witness :
    (aliceRow ∈ [aliceRow] ∧ aliceRow.eid = pyStrip " 123 ") ∧
    get_user_by_eid true [aliceRow] true " 123 " = none ∧
    get_user_by_eid true [aliceRow] false "999" = none :=
  ⟨c8_lookup_trims_and_collapses_failures.1 true [aliceRow] false " 123 "
      aliceRow (by decide),
   c8_lookup_trims_and_collapses_failures.2.1 true [aliceRow] " 123 ",
   c8_lookup_trims_and_collapses_failures.2.2 true [aliceRow] false "999"
      (by decide)⟩

/-- C9 as stated is false: the balance-update mutation is not a pass-through.
Updating the matching row with balance -5 writes 0, not -5: the code clamps
with max(0.0, new_balance). -/
theorem c9_counterexample_clamps_negative :
    ¬ ((update_user_balance true [aliceRow] false "123" (-5)).1.map
        UserRecord.current_balance = [(-5 : ℚ)]) := by decide

/-- C9 amended: the balance written by `update_user_balance` and
`update_user_balance_by_id` is max 0 of the supplied value (negative inputs are
clamped to zero); for nonnegative inputs the mutation is a pass-through. -/
theorem c9_amended_balance_clamped :
    (∀ (table : List UserRecord) (eid : String) (b : ℚ) (u : UserRecord),
        u ∈ (update_user_balance true table false eid b).1 →
        u.eid = pyStrip eid → u.current_balance = max 0 b) ∧
    (∀ (table : List UserRecord) (user_id : String) (b : ℚ) (u : UserRecord),
        u ∈ (update_user_balance_by_id true table false user_id b).1 →
        u.id = user_id → u.current_balance = max 0 b) ∧
    (∀ b : ℚ, 0 ≤ b → max 0 b = b) := by
  refine ⟨?_, ?_, ?_⟩
  · intro table eid b u hu heid
    unfold update_user_balance at hu
    simp only [Bool.not_true, Bool.false_eq_true, if_false] at hu
    rw [List.mem_map] at hu
    obtain ⟨v, hv, hvu⟩ := hu
    by_cases h : v.eid = pyStrip eid
    · rw [if_pos (beq_iff_eq.mpr h)] at hvu
      rw [← hvu]
    · rw [if_neg (by simpa using h)] at hvu
      exact absurd (hvu ▸ heid) h
  · intro table user_id b u hu hid
    unfold update_user_balance_by_id at hu
    simp only [Bool.not_true, Bool.false_eq_true, if_false] at hu
    rw [List.mem_map] at hu
    obtain ⟨v, hv, hvu⟩ := hu
    by_cases h : v.id = user_id
    · rw [if_pos (beq_iff_eq.mpr h)] at hvu
      rw [← hvu]
    · rw [if_neg (by simpa using h)] at hvu
      exact absurd (hvu ▸ hid) h
  · intro b hb
    exact max_eq_right hb

/-- Witness for C9 amended at concrete inputs: updating the one matching row
with balance 3 writes max 0 3, and max 0 3 = 3. -/
theorem c9_amended_witness :
    aliceRow3.current_balance = max 0 (3 : ℚ) ∧ max 0 (3 : ℚ) = 3 :=
  ⟨c9_amended_balance_clamped.1 [aliceRow] "123" 3 aliceRow3
      (by decide) (by decide),
   c9_amended_balance_clamped.2.2 3 (by norm_num)⟩

/-- C10: converting an API-format user to database format and back preserves
name, phoneNumber, the card id string and the balance, and yields the empty
string for the id and createdAt fields of the result. -/
theorem c10_api_roundtrip (u : ApiUser) :
    (convert_to_api_format (convert_from_api_format u)).name = u.name ∧
    (convert_to_api_format (convert_from_api_format u)).phoneNumber =
      u.phoneNumber ∧
    (convert_to_api_format (convert_from_api_format u)).rfidCardId =
      u.rfidCardId ∧
    (convert_to_api_format (convert_from_api_format u)).balance = u.balance ∧
    (convert_to_api_format (convert_from_api_format u)).id = "" ∧
    (convert_to_api_format (convert_from_api_format u)).createdAt = "" :=
  ⟨rfl, rfl, rfl, rfl, rfl, rfl⟩

/-- The sample row with an empty user id. -/
def aliceNoIdRow : UserRecord := { aliceRow with id := "" }

/-- A sample loop iteration input: a read of card "123" at time 10 whose users
query succeeds with no matching row and whose log insert succeeds. -/
def tickRead123 : Tick :=
  { readResult := some ("123", ""), time := 10,
    queryResult := Except.ok [], insertResult := Except.ok [()] }

/-- Inversion of an accepted iteration: a processed outcome means a card was
read, the accepted identifier is the stripped card id, the time is the tick
time, the events come from scan_and_log, the dedup condition did not fire, and
the new state holds the accepted identifier and time. -/
lemma mainStep_processed_inv {s : ScanState} {t : Tick} {eid : String}
    {time : ℚ} {evs : List LogData}
    (h : (mainStep s t).2 = TickOutcome.processed eid time evs) :
    ∃ card_id card_text, t.readResult = some (card_id, card_text) ∧
      eid = pyStrip card_id ∧ time = t.time ∧
      evs = scan_and_log eid t.queryResult ∧
      ¬ (s.last_scanned_eid = some eid ∧ t.time - s.last_scan_time < 2) ∧
      (mainStep s t).1 =
        { last_scanned_eid := some eid, last_scan_time := t.time } := by
  obtain ⟨r, tt, qr, ir⟩ := t
  rcases r with _ | ⟨card_id, card_text⟩
  · simp [mainStep] at h
  · by_cases hc : s.last_scanned_eid = some (pyStrip card_id) ∧
        tt - s.last_scan_time < 2
    · simp only [mainStep, if_pos hc] at h
      simp at h
    · simp only [mainStep, if_neg hc] at h
      obtain ⟨h1, h2, h3⟩ := TickOutcome.processed.inj h.symm
      subst h1; subst h2; subst h3
      exact ⟨card_id, card_text, rfl, rfl, rfl, rfl, hc,
        by simp only [mainStep, if_neg hc]⟩

/-- Non-accepted iterations leave the dedup state unchanged. -/
lemma mainStep_not_processed_state {s : ScanState} {t : Tick}
    (h : ∀ eid time evs, (mainStep s t).2 ≠ TickOutcome.processed eid time evs) :
    (mainStep s t).1 = s := by
  obtain ⟨r, tt, qr, ir⟩ := t
  rcases r with _ | ⟨card_id, card_text⟩
  · rfl
  · by_cases hc : s.last_scanned_eid = some (pyStrip card_id) ∧
        tt - s.last_scan_time < 2
    · simp only [mainStep, if_pos hc]
    · exact absurd (by simp only [mainStep, if_neg hc])
        (h (pyStrip card_id) tt (scan_and_log (pyStrip card_id) qr))

/-- Trace of an accepted iteration: directory lookup, then the appends, then
the state assignment, then the 0.5s sleep. -/
lemma mainIterActions_accepted {s : ScanState} {t : Tick}
    {card_id card_text : String}
    (hr : t.readResult = some (card_id, card_text))
    (hc : ¬ (s.last_scanned_eid = some (pyStrip card_id) ∧
      t.time - s.last_scan_time < 2)) :
    mainIterActions s t =
      Action.dirLookup (pyStrip card_id) ::
        ((scan_and_log (pyStrip card_id) t.queryResult).map Action.appendEvent ++
          [Action.setState (pyStrip card_id) t.time, Action.sleep (1/2)]) := by
  obtain ⟨r, tt, qr, ir⟩ := t
  obtain rfl : r = some (card_id, card_text) := hr
  simp only [mainIterActions, if_neg hc, scan_and_log_actions]
  simp

/-- Every call of scan_and_log produces at most one event. -/
lemma scan_and_log_length_le_one (eid : String)
    (qr : Except Unit (List UserRecord)) : (scan_and_log eid qr).length ≤ 1 := by
  rcases qr with _ | rows
  · exact Nat.zero_le 1
  · rcases rows with _ | ⟨u, rest⟩ <;> exact Nat.le_refl 1

/-- C2 as stated is false: when the directory query raises, scan_and_log
catches the exception and appends nothing — neither a login nor a failed event
is produced, so the outcome count is 0, not 1. -/
theorem c2_counterexample_exception_yields_no_event :
    ¬ ((scan_and_log "123" (Except.error ())).length = 1) := by decide

/-- C2 amended: when the directory query returns (does not raise), exactly one
event is produced, a login-success or a failed-failure one; when the query
raises, no event is produced. -/
theorem c2_amended_one_outcome_unless_query_raises (eid : String) :
    (∀ rows : List UserRecord, ∃ e, scan_and_log eid (Except.ok rows) = [e] ∧
        ((e.event_type = "login" ∧ e.success = true) ∨
          (e.event_type = "failed" ∧ e.success = false))) ∧
    scan_and_log eid (Except.error ()) = [] := by
  constructor
  · intro rows
    rcases rows with _ | ⟨u, rest⟩
    · exact ⟨_, rfl, Or.inr ⟨rfl, rfl⟩⟩
    · exact ⟨_, rfl, Or.inl ⟨rfl, rfl⟩⟩
  · rfl

/-- Witness for C2 amended at concrete inputs. -/
theorem c2_amended_witness :
    (∃ e, scan_and_log "123" (Except.ok ([] : List UserRecord)) = [e] ∧
        ((e.event_type = "login" ∧ e.success = true) ∨
          (e.event_type = "failed" ∧ e.success = false))) ∧
    scan_and_log "123" (Except.error ()) = [] :=
  ⟨(c2_amended_one_outcome_unless_query_raises "123").1 [],
    (c2_amended_one_outcome_unless_query_raises "123").2⟩

/-- C5 as stated is false on a record whose id is the empty string: the login
event then carries no user_id at all (the code adds user_id only when truthy),
rather than the record id. -/
theorem c5_counterexample_empty_id_dropped :
    ¬ ((scan_and_log "123" (Except.ok [aliceNoIdRow])).map LogData.user_id =
        [some aliceNoIdRow.id]) := by decide

/-- C5 amended: a resolved lookup emits a single login event with success true
whose user_id and user_name are the record fields when those are non-empty and
are omitted when empty; an empty result emits a single failed event with
success false, no user_id or user_name, and a message containing the scanned
identifier. -/
theorem c5_amended_event_contents (eid : String) :
    (∀ (u : UserRecord) (rest : List UserRecord),
        ∃ e, scan_and_log eid (Except.ok (u :: rest)) = [e] ∧
          e.eid = eid ∧ e.event_type = "login" ∧ e.success = true ∧
          e.user_id = (if u.id = "" then none else some u.id) ∧
          e.user_name = (if u.name = "" then none else some u.name)) ∧
    (∃ e, scan_and_log eid (Except.ok []) = [e] ∧
        e.eid = eid ∧ e.event_type = "failed" ∧ e.success = false ∧
        e.user_id = none ∧ e.user_name = none ∧
        ∃ pre post, e.message = some (pre ++ eid ++ post)) := by
  constructor
  · intro u rest
    refine ⟨_, rfl, rfl, rfl, rfl, ?_, ?_⟩
    · by_cases h : u.id = "" <;> simp [mkLogData, strTruthy, h]
    · by_cases h : u.name = "" <;> simp [mkLogData, strTruthy, h]
  · refine ⟨_, rfl, rfl, rfl, rfl, ?_, ?_, "No user found with EID: ", "", ?_⟩
    · simp [mkLogData, strTruthy]
    · simp [mkLogData, strTruthy]
    · simp [mkLogData]

/-- Witness for C5 amended at concrete inputs. -/
theorem c5_amended_witness :
    (∃ e, scan_and_log "123" (Except.ok [aliceRow]) = [e] ∧
        e.eid = "123" ∧ e.event_type = "login" ∧ e.success = true ∧
        e.user_id = (if aliceRow.id = "" then none else some aliceRow.id) ∧
        e.user_name =
          (if aliceRow.name = "" then none else some aliceRow.name)) ∧
    (∃ e, scan_and_log "123" (Except.ok []) = [e] ∧
        e.eid = "123" ∧ e.event_type = "failed" ∧ e.success = false ∧
        e.user_id = none ∧ e.user_name = none ∧
        ∃ pre post, e.message = some (pre ++ "123" ++ post)) :=
  ⟨(c5_amended_event_contents "123").1 aliceRow [],
    (c5_amended_event_contents "123").2⟩

/-- C6: a read whose stripped identifier differs from the last accepted one is
always accepted — the state is updated, scan_and_log runs (the directory lookup
is issued) — with no condition on the elapsed time. -/
theorem c6_different_id_bypasses_cooldown (s : ScanState) (t : Tick)
    (card_id card_text : String)
    (hr : t.readResult = some (card_id, card_text))
    (hne : s.last_scanned_eid ≠ some (pyStrip card_id)) :
    mainStep s t =
      ({ last_scanned_eid := some (pyStrip card_id), last_scan_time := t.time },
        TickOutcome.processed (pyStrip card_id) t.time
          (scan_and_log (pyStrip card_id) t.queryResult)) ∧
    Action.dirLookup (pyStrip card_id) ∈ mainIterActions s t := by
  have hc : ¬ (s.last_scanned_eid = some (pyStrip card_id) ∧
      t.time - s.last_scan_time < 2) := fun hx => hne hx.1
  refine ⟨?_, ?_⟩
  · obtain ⟨r, tt, qr, ir⟩ := t
    obtain rfl : r = some (card_id, card_text) := hr
    simp only [mainStep, if_neg hc]
  · rw [mainIterActions_accepted hr hc]
    exact List.mem_cons_self _ _

/-- Witness for C6 at a concrete input: a second, different card 0.1s after an
accepted scan of "123" is accepted. -/
theorem c6_witness :
    mainStep { last_scanned_eid := some "123", last_scan_time := 10 }
        { readResult := some ("456", ""), time := 101/10,
          queryResult := Except.ok [], insertResult := Except.ok [()] } =
      ({ last_scanned_eid := some "456", last_scan_time := 101/10 },
        TickOutcome.processed "456" (101/10)
          (scan_and_log "456" (Except.ok []))) ∧
    Action.dirLookup "456" ∈ mainIterActions
      { last_scanned_eid := some "123", last_scan_time := 10 }
      { readResult := some ("456", ""), time := 101/10,
        queryResult := Except.ok [], insertResult := Except.ok [()] } := by
  have h := c6_different_id_bypasses_cooldown
    { last_scanned_eid := some "123", last_scan_time := 10 }
    { readResult := some ("456", ""), time := 101/10,
      queryResult := Except.ok [], insertResult := Except.ok [()] }
    "456" "" rfl (by decide)
  exact h

/-- C7: the event append never raises to its caller: a raised insert yields
false; the iteration outcome, state and action trace do not depend on the
append oracle at all (the return value is ignored at every call site, so an
append failure neither interrupts the loop nor is retried); an accepted
iteration performs at most one append and ends with the normal 0.5s
inter-cycle sleep. -/
theorem c7_append_failure_swallowed :
    log_authentication_event (Except.error ()) = false ∧
    (∀ (s : ScanState) (t : Tick) (r1 r2 : Except Unit (List Unit)),
        mainStep s { t with insertResult := r1 } =
          mainStep s { t with insertResult := r2 } ∧
        mainIterActions s { t with insertResult := r1 } =
          mainIterActions s { t with insertResult := r2 }) ∧
    (∀ (s : ScanState) (t : Tick) (eid : String) (time : ℚ)
        (evs : List LogData),
        (mainStep s t).2 = TickOutcome.processed eid time evs →
        ((mainIterActions s t).filter Action.isAppend).length ≤ 1 ∧
        (mainIterActions s t).getLast? = some (Action.sleep (1/2))) := by
  refine ⟨rfl, ?_, ?_⟩
  · intro s t r1 r2
    exact ⟨rfl, rfl⟩
  · intro s t eid time evs h
    obtain ⟨card_id, card_text, hr, heid, htime, hevs, hc, hst⟩ :=
      mainStep_processed_inv h
    subst heid
    rw [mainIterActions_accepted hr hc]
    constructor
    · simp only [List.filter_cons, List.filter_append]
      simp only [Action.isAppend, Bool.false_eq_true, if_false,
        List.length_append]
      have h1 : (List.filter Action.isAppend
          ((scan_and_log (pyStrip card_id) t.queryResult).map
            Action.appendEvent)).length ≤
          (scan_and_log (pyStrip card_id) t.queryResult).length := by
        exact le_trans (List.length_filter_le _ _) (by simp)
      have h2 := scan_and_log_length_le_one (pyStrip card_id) t.queryResult
      simp only [List.filter, List.length_nil]
      omega
    · show ((Action.dirLookup (pyStrip card_id) ::
          (scan_and_log (pyStrip card_id) t.queryResult).map
            Action.appendEvent) ++
          Action.setState (pyStrip card_id) t.time ::
            [Action.sleep (1/2)]).getLast? = some (Action.sleep (1/2))
      rw [List.getLast?_append_cons]
      rfl

/-- Witness for C7 at concrete inputs. -/
theorem c7_witness :
    log_authentication_event (Except.error ()) = false ∧
    mainStep initState { tickRead123 with insertResult := Except.error () } =
      mainStep initState { tickRead123 with insertResult := Except.ok [()] } ∧
    ((mainIterActions initState tickRead123).filter Action.isAppend).length ≤
      1 ∧
    (mainIterActions initState tickRead123).getLast? =
      some (Action.sleep (1/2)) :=
  ⟨c7_append_failure_swallowed.1,
   (c7_append_failure_swallowed.2.1 initState tickRead123
      (Except.error ()) (Except.ok [()])).1,
   (c7_append_failure_swallowed.2.2 initState tickRead123 "123" 10
      (scan_and_log "123" (Except.ok [])) (by decide)).1,
   (c7_append_failure_swallowed.2.2 initState tickRead123 "123" 10
      (scan_and_log "123" (Except.ok [])) (by decide)).2⟩

/-- C1 as stated is false: in an accepted iteration the directory lookup is
the first observable action, and the ScanState update happens only after
scan_and_log returns, so no state update precedes the lookup. -/
theorem c1_counterexample_call_before_state :
    ¬ stateBeforeDir (mainIterActions initState tickRead123) := by
  intro h
  obtain ⟨i, e2, τ, hi, _⟩ := h 0 "123" (by decide)
  exact Nat.not_lt_zero i hi

/-- C1 amended: for every accepted scan the directory lookup strictly precedes
the ScanState update in the iteration trace — the remote call begins while
ScanState still holds the previous identifier and timestamp, and the state is
written only after scan_and_log returns. -/
theorem c1_amended_state_updated_after_call (s : ScanState) (t : Tick)
    (eid : String) (time : ℚ) (evs : List LogData)
    (h : (mainStep s t).2 = TickOutcome.processed eid time evs) :
    ∃ i j, i < j ∧
      (mainIterActions s t).get? i = some (Action.dirLookup eid) ∧
      (mainIterActions s t).get? j = some (Action.setState eid time) := by
  obtain ⟨card_id, card_text, hr, heid, htime, hevs, hc, hst⟩ :=
    mainStep_processed_inv h
  subst heid; subst htime
  rw [mainIterActions_accepted hr hc]
  refine ⟨0, (scan_and_log (pyStrip card_id) t.queryResult).length + 1,
    Nat.succ_pos _, rfl, ?_⟩
  show (((scan_and_log (pyStrip card_id) t.queryResult).map
      Action.appendEvent) ++
      [Action.setState (pyStrip card_id) t.time, Action.sleep (1/2)]).get?
      (scan_and_log (pyStrip card_id) t.queryResult).length =
    some (Action.setState (pyStrip card_id) t.time)
  rw [List.get?_append_right (by simp)]
  simp

/-- Witness for C1 amended at a concrete input. -/
theorem c1_amended_witness :
    ∃ i j, i < j ∧
      (mainIterActions initState tickRead123).get? i =
        some (Action.dirLookup "123") ∧
      (mainIterActions initState tickRead123).get? j =
        some (Action.setState "123" 10) :=
  c1_amended_state_updated_after_call initState tickRead123 "123" 10
    (scan_and_log "123" (Except.ok [])) (by decide)

/-- A tick reading card "123" at a given time, with the users query finding no
row and the insert succeeding. -/
def tick123At (tm : ℚ) : Tick :=
  { readResult := some ("123", ""), time := tm,
    queryResult := Except.ok [], insertResult := Except.ok [()] }

/-- When the dedup state remembers identifier e, the next accepted scan of e in
a run happens at least the cooldown after the remembered acceptance time. -/
lemma acceptedLog_head_ge (ts : List Tick) :
    ∀ (s : ScanState) (e : String) (t2 : ℚ),
      s.last_scanned_eid = some e →
      (acceptedLog s ts).head? = some (e, t2) →
      t2 - s.last_scan_time ≥ 2 := by
  induction ts with
  | nil =>
    intro s e t2 _ hh
    simp [acceptedLog] at hh
  | cons t ts ih =>
    intro s e t2 hlast hh
    rcases hms : mainStep s t with ⟨s2, out⟩
    rcases out with _ | _ | ⟨eid, time, evs⟩
    · have hs2 : s2 = s := by
        have h1 := mainStep_not_processed_state (s := s) (t := t)
          (fun eid time evs heq => by rw [hms] at heq; simp at heq)
        rw [hms] at h1
        exact h1
      simp only [acceptedLog, hms] at hh
      exact hs2 ▸ ih s2 e t2 (hs2.symm ▸ hlast) hh
    · have hs2 : s2 = s := by
        have h1 := mainStep_not_processed_state (s := s) (t := t)
          (fun eid time evs heq => by rw [hms] at heq; simp at heq)
        rw [hms] at h1
        exact h1
      simp only [acceptedLog, hms] at hh
      exact hs2 ▸ ih s2 e t2 (hs2.symm ▸ hlast) hh
    · simp only [acceptedLog, hms, List.head?_cons] at hh
      obtain ⟨he, ht⟩ := Prod.mk.inj (Option.some.inj hh)
      obtain ⟨card_id, card_text, hr, heid, htime, hevs, hc, hst⟩ :=
        mainStep_processed_inv (s := s) (t := t) (by rw [hms])
      subst he
      subst ht
      have hnot : ¬ (t.time - s.last_scan_time < 2) := fun hx => hc ⟨hlast, hx⟩
      rw [htime]
      linarith [not_lt.mp hnot]

/-- Adjacent accepted scans of the same identifier in a run are separated by at
least the cooldown. -/
lemma acceptedLog_chain (ts : List Tick) :
    ∀ (s : ScanState) (i : ℕ) (e : String) (t1 t2 : ℚ),
      (acceptedLog s ts).get? i = some (e, t1) →
      (acceptedLog s ts).get? (i + 1) = some (e, t2) →
      t2 - t1 ≥ 2 := by
  induction ts with
  | nil =>
    intro s i e t1 t2 h1 _
    simp [acceptedLog] at h1
  | cons t ts ih =>
    intro s i e t1 t2 h1 h2
    rcases hms : mainStep s t with ⟨s2, out⟩
    rcases out with _ | _ | ⟨eid, time, evs⟩
    · simp only [acceptedLog, hms] at h1 h2
      exact ih s2 i e t1 t2 h1 h2
    · simp only [acceptedLog, hms] at h1 h2
      exact ih s2 i e t1 t2 h1 h2
    · simp only [acceptedLog, hms] at h1 h2
      cases i with
      | zero =>
        rw [List.get?_cons_zero] at h1
        rw [List.get?_cons_succ, List.get?_zero] at h2
        obtain ⟨he, ht⟩ := Prod.mk.inj (Option.some.inj h1)
        obtain ⟨card_id, card_text, hr, heid, htime, hevs, hc, hst⟩ :=
          mainStep_processed_inv (s := s) (t := t) (by rw [hms])
        subst he
        subst ht
        have hs2 : s2 = ScanState.mk (some eid) t.time := by
          rw [hms] at hst
          exact hst
        have hge := acceptedLog_head_ge ts s2 eid t2 (by rw [hs2]) h2
        rw [hs2] at hge
        rw [htime]
        exact hge
      | succ n =>
        rw [List.get?_cons_succ] at h1 h2
        exact ih s2 n e t1 t2 h1 h2

/-- C3: two consecutive accepted scans of the same identifier are at least the
2-second cooldown apart, and a read equal to the last accepted identifier
arriving within the cooldown is discarded silently: the state is unchanged and
the iteration only sleeps — no directory lookup, no event append. -/
theorem c3_cooldown_dedup_invariant :
    (∀ (ticks : List Tick) (i : ℕ) (e : String) (t1 t2 : ℚ),
        (acceptedLog initState ticks).get? i = some (e, t1) →
        (acceptedLog initState ticks).get? (i + 1) = some (e, t2) →
        t2 - t1 ≥ 2) ∧
    (∀ (s : ScanState) (t : Tick) (card_id card_text : String),
        t.readResult = some (card_id, card_text) →
        s.last_scanned_eid = some (pyStrip card_id) →
        t.time - s.last_scan_time < 2 →
        mainStep s t = (s, TickOutcome.suppressed) ∧
        mainIterActions s t = [Action.sleep (1/10)]) := by
  constructor
  · intro ticks i e t1 t2 h1 h2
    exact acceptedLog_chain ticks initState i e t1 t2 h1 h2
  · intro s t card_id card_text hr hlast hlt
    obtain ⟨r, tt, qr, ir⟩ := t
    obtain rfl : r = some (card_id, card_text) := hr
    have hc : s.last_scanned_eid = some (pyStrip card_id) ∧
        tt - s.last_scan_time < 2 := ⟨hlast, hlt⟩
    exact ⟨by simp only [mainStep, if_pos hc],
      by simp only [mainIterActions, if_pos hc]⟩

/-- Evaluation of the first sample step: from the initial state, the read of
"123" at time 10 is accepted. -/
lemma mainStep_sample_one :
    mainStep initState (tick123At 10) =
      (ScanState.mk (some "123") 10,
        TickOutcome.processed "123" 10 (scan_and_log "123" (Except.ok []))) := by
  have h : ¬ (initState.last_scanned_eid = some (pyStrip "123") ∧
      (tick123At 10).time - initState.last_scan_time < 2) := by
    simp [initState]
  simp only [mainStep, tick123At]
  rw [if_neg (by simpa [tick123At] using h)]
  rfl

/-- Evaluation of the second sample step: with "123" remembered at time 10,
the read of "123" at time 13 is past the cooldown and accepted. -/
lemma mainStep_sample_two :
    mainStep (ScanState.mk (some "123") 10) (tick123At 13) =
      (ScanState.mk (some "123") 13,
        TickOutcome.processed "123" 13 (scan_and_log "123" (Except.ok []))) := by
  have h : ¬ ((ScanState.mk (some "123") 10).last_scanned_eid =
      some (pyStrip "123") ∧ (13 : ℚ) - 10 < 2) := by
    rintro ⟨_, hlt⟩
    norm_num at hlt
  simp only [mainStep, tick123At]
  rw [if_neg (by simpa using h)]
  rfl

/-- The accepted log of the two-sample run. -/
lemma acceptedLog_sample :
    acceptedLog initState [tick123At 10, tick123At 13] =
      [("123", 10), ("123", 13)] := by
  simp only [acceptedLog, mainStep_sample_one, mainStep_sample_two]

/-- Witness for C3 at concrete inputs: "123" accepted at times 10 and 13 are 3
≥ 2 apart, and a repeat of "123" at time 11 against state (some "123", 10) is
suppressed with a bare 0.1s sleep. -/
theorem c3_witness :
    ((13 : ℚ) - 10 ≥ 2) ∧
    (mainStep { last_scanned_eid := some "123", last_scan_time := 10 }
        (tick123At 11) =
      ({ last_scanned_eid := some "123", last_scan_time := 10 },
        TickOutcome.suppressed) ∧
      mainIterActions { last_scanned_eid := some "123", last_scan_time := 10 }
        (tick123At 11) = [Action.sleep (1/10)]) :=
  ⟨c3_cooldown_dedup_invariant.1 [tick123At 10, tick123At 13] 0 "123" 10 13
      (by rw [acceptedLog_sample]; rfl) (by rw [acceptedLog_sample]; rfl),
   c3_cooldown_dedup_invariant.2
      { last_scanned_eid := some "123", last_scan_time := 10 }
      (tick123At 11) "123" "" rfl (by decide) (by norm_num [tick123At])⟩

/-- After any prefix of normal iterations, an uncaught fault ends the run:
the exit is faulted, the fault is logged by the outer handler, and the cleanup
step runs when on the Raspberry Pi. -/
lemma runLoop_fault_exit (rpi : Bool) (rest : List LoopEvent) :
    ∀ (ticks : List Tick) (s : ScanState),
      (runLoop rpi s (ticks.map LoopEvent.tick ++ LoopEvent.fault :: rest)).2 =
        some ExitKind.faulted ∧
      Action.logFault ∈
        (runLoop rpi s (ticks.map LoopEvent.tick ++
          LoopEvent.fault :: rest)).1 ∧
      (rpi = true → Action.cleanup ∈
        (runLoop rpi s (ticks.map LoopEvent.tick ++
          LoopEvent.fault :: rest)).1) := by
  intro ticks
  induction ticks with
  | nil =>
    intro s
    refine ⟨rfl, List.mem_cons_self _ _, ?_⟩
    intro hrpi
    subst hrpi
    exact List.mem_cons_of_mem _ (List.mem_cons_self _ _)
  | cons t ts ih =>
    intro s
    obtain ⟨h1, h2, h3⟩ := ih (mainStep s t).1
    simp only [List.map_cons, List.cons_append, runLoop]
    exact ⟨h1, List.mem_append.mpr (Or.inr h2),
      fun hrpi => List.mem_append.mpr (Or.inr (h3 hrpi))⟩

/-- After any prefix of normal iterations, a KeyboardInterrupt ends the run
with exit interrupted and the cleanup step runs when on the Raspberry Pi. -/
lemma runLoop_interrupt_exit (rpi : Bool) (rest : List LoopEvent) :
    ∀ (ticks : List Tick) (s : ScanState),
      (runLoop rpi s (ticks.map LoopEvent.tick ++
        LoopEvent.interrupt :: rest)).2 = some ExitKind.interrupted ∧
      (rpi = true → Action.cleanup ∈
        (runLoop rpi s (ticks.map LoopEvent.tick ++
          LoopEvent.interrupt :: rest)).1) := by
  intro ticks
  induction ticks with
  | nil =>
    intro s
    refine ⟨rfl, ?_⟩
    intro hrpi
    subst hrpi
    exact List.mem_cons_self _ _
  | cons t ts ih =>
    intro s
    obtain ⟨h1, h2⟩ := ih (mainStep s t).1
    simp only [List.map_cons, List.cons_append, runLoop]
    exact ⟨h1, fun hrpi => List.mem_append.mpr (Or.inr (h2 hrpi))⟩

/-- C4 as stated is false: an uncaught fault inside an iteration does not let
the loop proceed — with a fault followed by a pending read of "123", the run
exits faulted and the later tick is never processed (its directory lookup
never appears in the trace). -/
theorem c4_counterexample_fault_terminates_loop :
    (runLoop true initState
        [LoopEvent.fault, LoopEvent.tick tickRead123]).2 =
      some ExitKind.faulted ∧
    Action.dirLookup "123" ∉
      (runLoop true initState
        [LoopEvent.fault, LoopEvent.tick tickRead123]).1 := by decide

/-- C4 amended: an uncaught fault inside an iteration is caught and logged by
the handler wrapping the whole loop, but it terminates the loop instead of
proceeding to the next iteration; the hardware cleanup step runs on every exit
path, fault or interrupt. -/
theorem c4_amended_fault_logged_but_terminates (rpi : Bool)
    (ticks : List Tick) (rest rest2 : List LoopEvent) :
    ((runLoop rpi initState
        (ticks.map LoopEvent.tick ++ LoopEvent.fault :: rest)).2 =
      some ExitKind.faulted ∧
      Action.logFault ∈ (runLoop rpi initState
        (ticks.map LoopEvent.tick ++ LoopEvent.fault :: rest)).1 ∧
      (rpi = true → Action.cleanup ∈ (runLoop rpi initState
        (ticks.map LoopEvent.tick ++ LoopEvent.fault :: rest)).1)) ∧
    ((runLoop rpi initState
        (ticks.map LoopEvent.tick ++ LoopEvent.interrupt :: rest2)).2 =
      some ExitKind.interrupted ∧
      (rpi = true → Action.cleanup ∈ (runLoop rpi initState
        (ticks.map LoopEvent.tick ++ LoopEvent.interrupt :: rest2)).1)) :=
  ⟨runLoop_fault_exit rpi rest ticks initState,
   runLoop_interrupt_exit rpi rest2 ticks initState⟩

/-- Witness for C4 amended at concrete inputs. -/
theorem c4_amended_witness :
    (runLoop true initState [LoopEvent.fault]).2 = some ExitKind.faulted ∧
    Action.logFault ∈ (runLoop true initState [LoopEvent.fault]).1 ∧
    Action.cleanup ∈ (runLoop true initState [LoopEvent.fault]).1 ∧
    (runLoop true initState [LoopEvent.interrupt]).2 =
      some ExitKind.interrupted ∧
    Action.cleanup ∈ (runLoop true initState [LoopEvent.interrupt]).1 := by
  obtain ⟨⟨h1, h2, h3⟩, h4, h5⟩ :=
    c4_amended_fault_logged_but_terminates true [] [] []
  exact ⟨h1, h2, h3 rfl, h4, h5 rfl⟩

end EvKiosk
